import Mathlib

/-!
Shallow embedding of the ZZultra Pool API (src/index.js).

The embedding covers the transaction core: the `POST /api/transactions`
handler (input validation, on-chain verification, and the atomic
BEGIN .. COMMIT unit that inserts a `transactions` row, updates the
`pools` row and adjusts `pool_participants`), the
`GET /api/pools/:poolId/transactions` listing, and the
`convertLockToSeconds` helper used by the dashboard route.

Modelling conventions:
* SQL numeric columns are rationals (`ℚ`); nullable columns are `Option`.
* A JSON request body is a record of strings; a missing string field and
  an empty string are both falsy in JS (`!chain` etc.), so both are
  modelled by `""`.  `amount === undefined` is modelled by `none`.
* The two chain oracles (`verifyOnSepolia`, `verifyOnSolana`) catch every
  error internally and return a boolean, so they are modelled as opaque
  boolean-valued functions supplied as parameters.
* The database is explicit state (`LedgerState`).  Because every SQL
  statement of the handler runs between `BEGIN` and `COMMIT` and any
  error triggers `ROLLBACK` (src/index.js lines 98, 162, 166), a failing
  statement leaves the observable state exactly as it was; the embedding
  therefore returns the original state at every failure point and stages
  the combined effects only on the committed path.  `DbFailure` says
  which of the statements of the unit raises on this request.
-/

namespace PoolApi

/-- ASCII lowercasing of one character, as JS `toLowerCase` acts on the
type strings involved here. -/
def charLower (c : Char) : Char :=
  if c.isUpper then Char.ofNat (c.toNat + 32) else c

/-- JS `String.prototype.toLowerCase` (src/index.js line 81), restricted
to ASCII. -/
def strLower (s : String) : String := ⟨s.data.map charLower⟩

/-- Request body of `POST /api/transactions` (src/index.js line 66).
`amount = none` models a body without an `amount` field; a present
numeric value is a rational. -/
structure TxRequest where
  chain : String
  txHashOrSig : String
  poolId : String
  userAddress : String
  amount : Option ℚ
  txType : String
  deriving DecidableEq

/-- A row of the `pools` table, restricted to the columns the transaction
core reads or writes: `id`, `current_pool_balance`, `active_entries`
(both nullable, see the COALESCE at src/index.js lines 119 and 122). -/
structure PoolRow where
  id : String
  current_pool_balance : Option ℚ
  active_entries : Option ℤ
  deriving DecidableEq

/-- A row of the `pool_participants` table (unique on (pool_id, user_address)). -/
structure ParticipantRow where
  pool_id : String
  user_address : String
  amount : ℚ
  deriving DecidableEq

/-- A row of the `transactions` table (src/index.js lines 101-105);
`id` and `created_on` are server-assigned. -/
structure TransactionRow where
  id : ℕ
  pool_id : String
  transaction_type : String
  amount : ℚ
  user_address : String
  tx_hash_or_sig : String
  created_on : ℕ
  deriving DecidableEq

/-- The ledger: the three tables the transaction core touches. -/
structure LedgerState where
  pools : List PoolRow
  participants : List ParticipantRow
  transactions : List TransactionRow
  deriving DecidableEq

/-- Which SQL statements of the atomic unit raise an error on this
request (a raised error is caught at src/index.js line 165 and answered
with ROLLBACK + 500). -/
structure DbFailure where
  failInsert : Bool
  failPoolUpdate : Bool
  failParticipantWrite : Bool
  failParticipantDelete : Bool
  deriving DecidableEq

/-- No statement fails: the unit commits. -/
def noFail : DbFailure := ⟨false, false, false, false⟩

/-- The JSON replies of the handler: `res.json({success: true, ...})`,
`res.status(400).json({error: ...})`, `res.status(500).json({error: ...})`. -/
inductive TxResponse where
  | success (transaction : TransactionRow)
  | badRequest (error : String)
  | serverError (error : String)
  deriving DecidableEq

/-- HTTP status code of a reply. -/
def respStatus : TxResponse → ℕ
  | .success _ => 200
  | .badRequest _ => 400
  | .serverError _ => 500

/-- Chain dispatch of the handler (src/index.js lines 84-89): `Sepolia`
asks the EVM oracle, `SolanaDevnet` the Solana oracle, any other chain
identifier leaves `verified = false`. -/
def verifiedOnChain (vSepolia vSolana : String → Bool) (chain txHashOrSig : String) : Bool :=
  if chain = "Sepolia" then vSepolia txHashOrSig
  else if chain = "SolanaDevnet" then vSolana txHashOrSig
  else false

/-- The `WHERE pool_id = $1 AND user_address = $2` match used by all
three participant statements. -/
def keyMatches (poolId userAddress : String) (q : ParticipantRow) : Bool :=
  q.pool_id == poolId && q.user_address == userAddress

/-- The deposit upsert (src/index.js lines 131-136): insert the row, or
on conflict on (pool_id, user_address) add to the existing amount. -/
def participantUpsert (poolId userAddress : String) (amt : ℚ)
    (ps : List ParticipantRow) : List ParticipantRow :=
  if ps.any (keyMatches poolId userAddress) then
    ps.map fun q => if keyMatches poolId userAddress q then
      { q with amount := q.amount + amt } else q
  else ps ++ [⟨poolId, userAddress, amt⟩]

/-- The withdraw update (src/index.js lines 143-147):
`SET amount = amount - $1` on the matching row (no row changed when the
participant is absent). -/
def participantWithdrawUpdate (amt : ℚ) (poolId userAddress : String)
    (ps : List ParticipantRow) : List ParticipantRow :=
  ps.map fun q => if keyMatches poolId userAddress q then
    { q with amount := q.amount - amt } else q

/-- The depletion delete (src/index.js line 156): remove the matching
row when its amount dropped to zero or below. -/
def participantDeleteDepleted (poolId userAddress : String)
    (ps : List ParticipantRow) : List ParticipantRow :=
  ps.filter fun q => !(keyMatches poolId userAddress q && decide (q.amount ≤ 0))

/-- One pool row under `poolUpdateQuery` (src/index.js lines 117-126):
`current_pool_balance = COALESCE(current_pool_balance, 0) ± $1` with `+`
exactly when the lowercased type is `deposit`, and
`active_entries = GREATEST(COALESCE(active_entries, 0) ± 1, 0)` with the
same sign choice. -/
def poolUpdateRow (txTypeLower : String) (amt : ℚ) (r : PoolRow) : PoolRow :=
  { r with
    current_pool_balance :=
      some (r.current_pool_balance.getD 0 + (if txTypeLower = "deposit" then amt else -amt)),
    active_entries :=
      some (max (r.active_entries.getD 0 + (if txTypeLower = "deposit" then 1 else -1)) 0) }

/-- The row produced by `insertTransactionQuery` (src/index.js
lines 101-112): the lowercased type, the request amount, and the
server-assigned id and timestamp. -/
def mkTxRow (now : ℕ) (req : TxRequest) (st : LedgerState) : TransactionRow :=
  ⟨st.transactions.length, req.poolId, strLower req.txType, req.amount.getD 0,
    req.userAddress, req.txHashOrSig, now⟩

/-- Effect of the transaction insert on the ledger. -/
def insertTransaction (now : ℕ) (req : TxRequest) (st : LedgerState) : LedgerState :=
  { st with transactions := st.transactions ++ [mkTxRow now req st] }

/-- Effect of `poolUpdateQuery` on the ledger: every `pools` row with
`id = $2` is updated (src/index.js line 125). -/
def updatePools (req : TxRequest) (st : LedgerState) : LedgerState :=
  { st with
    pools := st.pools.map fun r =>
      if r.id = req.poolId then poolUpdateRow (strLower req.txType) (req.amount.getD 0) r else r }

/-- Committed effects of a deposit request: insert, pool update,
participant upsert. -/
def applyDeposit (now : ℕ) (req : TxRequest) (st : LedgerState) : LedgerState :=
  { updatePools req (insertTransaction now req st) with
    participants :=
      participantUpsert req.poolId req.userAddress (req.amount.getD 0) st.participants }

/-- Committed effects of a withdraw request: insert, pool update,
participant update then depletion delete. -/
def applyWithdraw (now : ℕ) (req : TxRequest) (st : LedgerState) : LedgerState :=
  { updatePools req (insertTransaction now req st) with
    participants :=
      participantDeleteDepleted req.poolId req.userAddress
        (participantWithdrawUpdate (req.amount.getD 0) req.poolId req.userAddress
          st.participants) }

/-- Committed effects of a request whose lowercased type is neither
`deposit` nor `withdraw`: the handler runs no participant statement
(src/index.js lines 130-159 fall through), so only the insert and the
pool update apply. -/
def applyOther (now : ℕ) (req : TxRequest) (st : LedgerState) : LedgerState :=
  updatePools req (insertTransaction now req st)

/-- Combined committed effects, dispatched on the lowercased type
exactly as src/index.js lines 130 and 142 do. -/
def applyStep (now : ℕ) (req : TxRequest) (st : LedgerState) : LedgerState :=
  if strLower req.txType = "deposit" then applyDeposit now req st
  else if strLower req.txType = "withdraw" then applyWithdraw now req st
  else applyOther now req st

/-- The `POST /api/transactions` handler (src/index.js lines 64-170).

Control flow, in source order: the falsy-field check (lines 69-78), the
on-chain verification gate (lines 83-95), then the atomic unit.  Inside
the unit, a statement that raises is caught by the handler's `catch`,
which issues ROLLBACK and answers 500 — so at each failing statement the
observable ledger is the unchanged `st`.  The participant-write
statement only exists on the `deposit`/`withdraw` branches and the
depletion delete only on the `withdraw` branch, mirroring lines 130-159. -/
def recordTransaction (vSepolia vSolana : String → Bool) (fail : DbFailure) (now : ℕ)
    (req : TxRequest) (st : LedgerState) : TxResponse × LedgerState :=
  if req.chain = "" ∨ req.txHashOrSig = "" ∨ req.poolId = "" ∨ req.userAddress = ""
      ∨ req.txType = "" ∨ req.amount = none then
    (TxResponse.badRequest "Missing required fields", st)
  else if verifiedOnChain vSepolia vSolana req.chain req.txHashOrSig = false then
    (TxResponse.badRequest "Could not verify transaction on-chain", st)
  else if fail.failInsert then (TxResponse.serverError "Server error", st)
  else if fail.failPoolUpdate then (TxResponse.serverError "Server error", st)
  else if strLower req.txType = "deposit" then
    (if fail.failParticipantWrite then (TxResponse.serverError "Server error", st)
     else (TxResponse.success (mkTxRow now req st), applyDeposit now req st))
  else if strLower req.txType = "withdraw" then
    (if fail.failParticipantWrite then (TxResponse.serverError "Server error", st)
     else if fail.failParticipantDelete then (TxResponse.serverError "Server error", st)
     else (TxResponse.success (mkTxRow now req st), applyWithdraw now req st))
  else (TxResponse.success (mkTxRow now req st), applyOther now req st)

/-- All falsy-field validation checks of src/index.js lines 69-78 pass. -/
def fieldsPresent (req : TxRequest) : Prop :=
  req.chain ≠ "" ∧ req.txHashOrSig ≠ "" ∧ req.poolId ≠ "" ∧ req.userAddress ≠ ""
    ∧ req.txType ≠ "" ∧ req.amount ≠ none

instance (req : TxRequest) : Decidable (fieldsPresent req) := by
  unfold fieldsPresent; infer_instance

/-- A sequence of `POST /api/transactions` requests applied in order,
each against the state the previous one left (with a committing store). -/
def runSeq (vSepolia vSolana : String → Bool) (now : ℕ) (reqs : List TxRequest)
    (st : LedgerState) : LedgerState :=
  reqs.foldl (fun s r => (recordTransaction vSepolia vSolana noFail now r s).2) st

/-- Signed pool-balance contribution of one request, with the sign the
`poolUpdateQuery` string interpolation picks: `+` for lowercased
`deposit`, `-` for everything else. -/
def signedAmount (req : TxRequest) : ℚ :=
  if strLower req.txType = "deposit" then req.amount.getD 0 else -(req.amount.getD 0)

/-- Net signed flow of a request sequence. -/
def netFlow (reqs : List TxRequest) : ℚ :=
  (reqs.map signedAmount).sum

/-- Total amount of the requests whose lowercased type is `deposit`
(the quantity the conservation claim adds). -/
def depositTotal (reqs : List TxRequest) : ℚ :=
  ((reqs.filter fun r => strLower r.txType == "deposit").map fun r => r.amount.getD 0).sum

/-- Total amount of the requests whose lowercased type is `withdraw`
(the quantity the conservation claim subtracts). -/
def withdrawTotal (reqs : List TxRequest) : ℚ :=
  ((reqs.filter fun r => strLower r.txType == "withdraw").map fun r => r.amount.getD 0).sum

/-- Pool balances with NULL read as zero, the way `poolUpdateQuery`
coalesces them. -/
def coalescedBalances (st : LedgerState) : List (String × ℚ) :=
  st.pools.map fun r => (r.id, r.current_pool_balance.getD 0)

/-- A JavaScript number: either NaN or a finite numeric value
(modelled as a rational). -/
inductive JsNum where
  | nan
  | num (q : ℚ)
  deriving DecidableEq

/-- Own property names of `Object.prototype`: the `units` object literal
of `convertLockToSeconds` inherits all of them, so `units[key]` for any
of these keys returns the inherited function (or, for `__proto__`, the
prototype object) instead of `undefined`. -/
def objectProtoKeys : List String :=
  ["constructor", "hasOwnProperty", "isPrototypeOf", "propertyIsEnumerable",
   "toLocaleString", "toString", "valueOf", "__defineGetter__", "__defineSetter__",
   "__lookupGetter__", "__lookupSetter__", "__proto__"]

/-- Result of the JS property read `units[lockUnit]` (src/index.js
lines 347-355): one of the six own numeric properties, a truthy
non-numeric value inherited from `Object.prototype`, or `undefined`. -/
inductive UnitsLookup where
  | ownNum (q : ℚ)
  | inherited
  | absent
  deriving DecidableEq

/-- The JS property lookup on the `units` object literal, prototype
chain included: the six own entries first, then the keys inherited from
`Object.prototype`, and `undefined` for everything else. -/
def unitsLookup (lockUnit : String) : UnitsLookup :=
  if lockUnit = "seconds" then .ownNum 1
  else if lockUnit = "minutes" then .ownNum 60
  else if lockUnit = "hours" then .ownNum 3600
  else if lockUnit = "days" then .ownNum 86400
  else if lockUnit = "weeks" then .ownNum 604800
  else if lockUnit = "months" then .ownNum 2592000
  else if lockUnit ∈ objectProtoKeys then .inherited
  else .absent

/-- The `convertLockToSeconds` helper (src/index.js lines 346-356):
`lockValue * (units[lockUnit] || 1)`.  An own numeric entry is truthy
(none is 0), so `|| 1` keeps it and the product is numeric; a value
inherited from `Object.prototype` is truthy but not a number, so `|| 1`
keeps it and the multiplication evaluates to NaN; `undefined` is falsy,
so `|| 1` substitutes the default multiplier 1. -/
def convertLockToSeconds (lockValue : ℚ) (lockUnit : String) : JsNum :=
  match unitsLookup lockUnit with
  | .ownNum m => .num (lockValue * m)
  | .inherited => .nan
  | .absent => .num (lockValue * 1)

/-- The `GET /api/pools/:poolId/transactions` query (src/index.js
lines 181-194): rows of the pool, ordered by `created_on DESC`,
`LIMIT 50`. -/
def listTransactionsForPool (poolId : String) (st : LedgerState) : List TransactionRow :=
  ((st.transactions.filter fun t => t.pool_id == poolId).insertionSort
    fun a b => b.created_on ≤ a.created_on).take 50

/-- An always-true verification oracle. -/
def oracleTrue : String → Bool := fun _ => true

/-- An always-false verification oracle. -/
def oracleFalse : String → Bool := fun _ => false

/-- A pool with zeroed balance and entry count. -/
def basePool : PoolRow := ⟨"p1", some 0, some 0⟩

/-- A one-pool ledger with no participants and no transactions. -/
def st0 : LedgerState := ⟨[basePool], [], []⟩

/-- A verified request whose type is neither deposit nor withdraw. -/
def stakeReq : TxRequest := ⟨"Sepolia", "0xabc", "p1", "u1", some 5, "Stake"⟩

/-- A request whose amount is present but negative. -/
def negAmountReq : TxRequest := ⟨"Sepolia", "0xneg", "p1", "u1", some (-5), "Deposit"⟩

/-- A deposit request with a negative amount, driving a participant
balance below zero. -/
def negDepositReq : TxRequest := ⟨"Sepolia", "0xnd", "p1", "u1", some (-10), "Deposit"⟩

/-- A ledger whose one participant holds 5 in pool p1. -/
def st6 : LedgerState := ⟨[basePool], [⟨"p1", "u1", 5⟩], []⟩

/-- An ordinary deposit request. -/
def depositReq : TxRequest := ⟨"Sepolia", "0xdep", "p1", "u1", some 100, "Deposit"⟩

/-- An ordinary withdraw request. -/
def withdrawReq : TxRequest := ⟨"Sepolia", "0xwd", "p1", "u1", some 40, "Withdraw"⟩

/-- A request naming a chain the handler does not know. -/
def unknownChainReq : TxRequest := ⟨"Ethereum", "0xuc", "p1", "u1", some 7, "Deposit"⟩

/-- A withdraw larger than the pool balance, by a user with no
participant row. -/
def bigWithdrawReq : TxRequest := ⟨"Sepolia", "0xbw", "p1", "u1", some 25, "Withdraw"⟩

/-- A one-pool ledger holding 10 with no participants. -/
def st8 : LedgerState := ⟨[⟨"p1", some 10, some 3⟩], [], []⟩

/-- A request body with no amount field. -/
def noAmountReq : TxRequest := ⟨"Sepolia", "0xna", "p1", "u1", none, "Deposit"⟩

/-- A failure model where only the transaction insert raises. -/
def failInsertOnly : DbFailure := ⟨true, false, false, false⟩

/-- A stored transaction row of pool p1 at time 5. -/
def tx10a : TransactionRow := ⟨0, "p1", "deposit", 3, "u1", "0xa", 5⟩

/-- A stored transaction row of pool p2 at time 9. -/
def tx10b : TransactionRow := ⟨1, "p2", "deposit", 4, "u2", "0xb", 9⟩

/-- A stored transaction row of pool p1 at time 8. -/
def tx10c : TransactionRow := ⟨2, "p1", "withdraw", 1, "u1", "0xc", 8⟩

/-- A ledger with three transactions across two pools, out of timestamp
order. -/
def st10 : LedgerState := ⟨[], [], [tx10a, tx10b, tx10c]⟩

/-- A request with all fields present is not caught by the falsy-field
check. -/
theorem fieldsPresent_not_missing {req : TxRequest} (h : fieldsPresent req) :
    ¬(req.chain = "" ∨ req.txHashOrSig = "" ∨ req.poolId = "" ∨ req.userAddress = ""
      ∨ req.txType = "" ∨ req.amount = none) := by
  obtain ⟨h1, h2, h3, h4, h5, h6⟩ := h
  simp [h1, h2, h3, h4, h5, h6]

/-- On a committing store, a request that passes validation and
verification answers success and commits the combined ledger effects. -/
theorem recordTransaction_noFail_success (vSepolia vSolana : String → Bool) (now : ℕ)
    (req : TxRequest) (st : LedgerState) (hf : fieldsPresent req)
    (hv : verifiedOnChain vSepolia vSolana req.chain req.txHashOrSig = true) :
    recordTransaction vSepolia vSolana noFail now req st =
      (TxResponse.success (mkTxRow now req st), applyStep now req st) := by
  unfold recordTransaction applyStep
  rw [if_neg (fieldsPresent_not_missing hf), if_neg (by simp [hv])]
  by_cases h1 : strLower req.txType = "deposit" <;>
    by_cases h2 : strLower req.txType = "withdraw" <;>
      simp [noFail, h1, h2]

/-- Pools component of the committed effects: exactly the rows whose id
matches get the balance/entries update. -/
theorem applyStep_pools (now : ℕ) (req : TxRequest) (st : LedgerState) :
    (applyStep now req st).pools = st.pools.map fun r =>
      if r.id = req.poolId then
        poolUpdateRow (strLower req.txType) (req.amount.getD 0) r else r := by
  by_cases h1 : strLower req.txType = "deposit" <;>
    by_cases h2 : strLower req.txType = "withdraw" <;>
      simp [applyStep, applyDeposit, applyWithdraw, applyOther, updatePools,
        insertTransaction, h1, h2]

/-- Participants component of the committed effects, by transaction
type. -/
theorem applyStep_participants (now : ℕ) (req : TxRequest) (st : LedgerState) :
    (applyStep now req st).participants =
      if strLower req.txType = "deposit" then
        participantUpsert req.poolId req.userAddress (req.amount.getD 0) st.participants
      else if strLower req.txType = "withdraw" then
        participantDeleteDepleted req.poolId req.userAddress
          (participantWithdrawUpdate (req.amount.getD 0) req.poolId req.userAddress
            st.participants)
      else st.participants := by
  by_cases h1 : strLower req.txType = "deposit" <;>
    by_cases h2 : strLower req.txType = "withdraw" <;>
      simp [applyStep, applyDeposit, applyWithdraw, applyOther, updatePools,
        insertTransaction, h1, h2]

/-- Transactions component of the committed effects: exactly one new
audit row is appended. -/
theorem applyStep_transactions (now : ℕ) (req : TxRequest) (st : LedgerState) :
    (applyStep now req st).transactions = st.transactions ++ [mkTxRow now req st] := by
  by_cases h1 : strLower req.txType = "deposit" <;>
    by_cases h2 : strLower req.txType = "withdraw" <;>
      simp [applyStep, applyDeposit, applyWithdraw, applyOther, updatePools,
        insertTransaction, h1, h2]

/-- Unfolding a request sequence by one step. -/
theorem runSeq_cons (vSepolia vSolana : String → Bool) (now : ℕ) (r : TxRequest)
    (rs : List TxRequest) (st : LedgerState) :
    runSeq vSepolia vSolana now (r :: rs) st =
      runSeq vSepolia vSolana now rs (recordTransaction vSepolia vSolana noFail now r st).2 :=
  rfl

/-- Whatever the outcome, a request on a committing store either leaves
the ledger unchanged (rejection) or commits the combined effects. -/
theorem recordTransaction_state_cases (vSepolia vSolana : String → Bool) (fail : DbFailure)
    (now : ℕ) (req : TxRequest) (st : LedgerState) :
    (recordTransaction vSepolia vSolana fail now req st).2 = st ∨
    (recordTransaction vSepolia vSolana fail now req st).2 = applyStep now req st := by
  unfold recordTransaction
  split
  · exact Or.inl rfl
  split
  · exact Or.inl rfl
  split
  · exact Or.inl rfl
  split
  · exact Or.inl rfl
  split
  next hdep =>
    split
    · exact Or.inl rfl
    · exact Or.inr (by simp [applyStep, hdep])
  next hdep =>
    split
    next hwd =>
      split
      · exact Or.inl rfl
      split
      · exact Or.inl rfl
      · exact Or.inr (by simp [applyStep, hdep, hwd])
    next hwd => exact Or.inr (by simp [applyStep, hdep, hwd])

/-- C2: for every request to recordTransaction whose on-chain
verification returns false (unknown chain identifiers and oracle errors
included, since both leave `verified = false`), the response is the 400
client error "Could not verify transaction on-chain" and the ledger
state (transactions, pools, pool_participants) is exactly the state
before the request, for every storage-failure behaviour — verification
happens strictly before any durable write. -/
theorem C2_unverified_rejected_no_mutation (vSepolia vSolana : String → Bool)
    (fail : DbFailure) (now : ℕ) (req : TxRequest) (st : LedgerState)
    (hf : fieldsPresent req)
    (hv : verifiedOnChain vSepolia vSolana req.chain req.txHashOrSig = false) :
    recordTransaction vSepolia vSolana fail now req st =
      (TxResponse.badRequest "Could not verify transaction on-chain", st) ∧
    respStatus (recordTransaction vSepolia vSolana fail now req st).1 = 400 := by
  have h : recordTransaction vSepolia vSolana fail now req st =
      (TxResponse.badRequest "Could not verify transaction on-chain", st) := by
    unfold recordTransaction
    rw [if_neg (fieldsPresent_not_missing hf), if_pos hv]
  exact ⟨h, by rw [h]; rfl⟩

/-- C2 witness: a request naming the unknown chain "Ethereum" is
rejected unverified with the ledger untouched, even with an always-true
oracle and no storage failures. -/
theorem C2_witness :
    fieldsPresent unknownChainReq ∧
    verifiedOnChain oracleTrue oracleTrue unknownChainReq.chain unknownChainReq.txHashOrSig
      = false ∧
    recordTransaction oracleTrue oracleTrue noFail 0 unknownChainReq st0 =
      (TxResponse.badRequest "Could not verify transaction on-chain", st0) :=
  ⟨by decide, by decide,
    (C2_unverified_rejected_no_mutation oracleTrue oracleTrue noFail 0 unknownChainReq st0
      (by decide) (by decide)).1⟩

/-- C5 (amended): the handler only checks that `amount` is present
(`amount === undefined`); a request with a missing amount fails with the
client error "Missing required fields" before verification (for every
oracle and storage behaviour) and performs no ledger mutation.  No
non-negativity or parseability check is performed — a present negative
amount passes validation (see the counterexample). -/
theorem C5_missing_amount_rejected (vSepolia vSolana : String → Bool) (fail : DbFailure)
    (now : ℕ) (req : TxRequest) (st : LedgerState) (ha : req.amount = none) :
    recordTransaction vSepolia vSolana fail now req st =
      (TxResponse.badRequest "Missing required fields", st) ∧
    respStatus (recordTransaction vSepolia vSolana fail now req st).1 = 400 := by
  have h : recordTransaction vSepolia vSolana fail now req st =
      (TxResponse.badRequest "Missing required fields", st) := by
    unfold recordTransaction
    rw [if_pos (Or.inr (Or.inr (Or.inr (Or.inr (Or.inr ha)))))]
  exact ⟨h, by rw [h]; rfl⟩

/-- C5 counterexample: a request whose amount is present but negative
(so not a non-negative number) is NOT rejected with "Missing required
fields": it passes validation and reaches the verification stage, where
it draws the verification error instead. -/
theorem C5_counterexample :
    negAmountReq.amount = some (-5) ∧
    (recordTransaction oracleFalse oracleFalse noFail 0 negAmountReq st0).1 =
      TxResponse.badRequest "Could not verify transaction on-chain" ∧
    (recordTransaction oracleFalse oracleFalse noFail 0 negAmountReq st0).1 ≠
      TxResponse.badRequest "Missing required fields" :=
  ⟨rfl, by decide, by decide⟩

/-- C5 witness: a request without an amount is rejected with "Missing
required fields" and the ledger is unchanged. -/
theorem C5_witness :
    noAmountReq.amount = none ∧
    recordTransaction oracleTrue oracleTrue noFail 0 noAmountReq st0 =
      (TxResponse.badRequest "Missing required fields", st0) :=
  ⟨rfl, (C5_missing_amount_rejected oracleTrue oracleTrue noFail 0 noAmountReq st0 rfl).1⟩

/-- C1 (amended): a transaction type that lowercases to neither
"deposit" nor "withdraw" is NOT rejected: with all fields present and
verification passing, the request succeeds, a Transaction row carrying
the lowercased type is inserted, the pool balance is decremented by the
amount (the update treats every non-deposit type with the withdraw
sign) and `active_entries` decremented with the zero clamp, while no
Participant change is performed. -/
theorem C1_unknown_type_not_rejected (vSepolia vSolana : String → Bool) (now : ℕ)
    (req : TxRequest) (st : LedgerState) (hf : fieldsPresent req)
    (hd : strLower req.txType ≠ "deposit") (hw : strLower req.txType ≠ "withdraw")
    (hv : verifiedOnChain vSepolia vSolana req.chain req.txHashOrSig = true) :
    (recordTransaction vSepolia vSolana noFail now req st).1 =
      TxResponse.success (mkTxRow now req st) ∧
    (recordTransaction vSepolia vSolana noFail now req st).2.transactions =
      st.transactions ++ [mkTxRow now req st] ∧
    (recordTransaction vSepolia vSolana noFail now req st).2.participants =
      st.participants ∧
    (recordTransaction vSepolia vSolana noFail now req st).2.pools = st.pools.map fun r =>
      if r.id = req.poolId then
        { r with
          current_pool_balance := some (r.current_pool_balance.getD 0 - req.amount.getD 0),
          active_entries := some (max (r.active_entries.getD 0 - 1) 0) }
      else r := by
  rw [recordTransaction_noFail_success vSepolia vSolana now req st hf hv]
  refine ⟨rfl, applyStep_transactions now req st, ?_, ?_⟩
  · rw [applyStep_participants, if_neg hd, if_neg hw]
  · rw [applyStep_pools]
    apply List.map_congr_left
    intro r _
    by_cases hid : r.id = req.poolId
    · simp [hid, poolUpdateRow, hd, sub_eq_add_neg]
    · simp [hid]

/-- C1 counterexample: the verified request with type "Stake" (lowercased
"stake", neither deposit nor withdraw) draws a 200 success, writes a
Transaction row, and moves the pool balance from 0 to -5 — it is not a
validation failure and the ledger is mutated. -/
theorem C1_counterexample :
    strLower stakeReq.txType = "stake" ∧
    (recordTransaction oracleTrue oracleTrue noFail 0 stakeReq st0).1 =
      TxResponse.success (mkTxRow 0 stakeReq st0) ∧
    respStatus (recordTransaction oracleTrue oracleTrue noFail 0 stakeReq st0).1 = 200 ∧
    (recordTransaction oracleTrue oracleTrue noFail 0 stakeReq st0).2.transactions.length
      = 1 ∧
    (recordTransaction oracleTrue oracleTrue noFail 0 stakeReq st0).2.pools =
      [⟨"p1", some (-5), some 0⟩] :=
  ⟨rfl, by decide, by decide, by with_unfolding_all rfl, by with_unfolding_all rfl⟩

/-- C1 witness: the amended theorem instantiated at the "Stake" request. -/
theorem C1_witness :
    fieldsPresent stakeReq ∧ strLower stakeReq.txType ≠ "deposit" ∧
    strLower stakeReq.txType ≠ "withdraw" ∧
    (recordTransaction oracleTrue oracleTrue noFail 0 stakeReq st0).1 =
      TxResponse.success (mkTxRow 0 stakeReq st0) :=
  ⟨by decide, by decide, by decide,
    (C1_unknown_type_not_rejected oracleTrue oracleTrue 0 stakeReq st0
      (by decide) (by decide) (by decide) (by decide)).1⟩

/-- C3: if any storage statement inside the atomic unit fails — the
Transaction insert, the Pool adjustment, the Participant upsert/update
(present only on the deposit/withdraw branches), or the Participant
depletion delete (withdraw branch) — the whole unit is rolled back: the
response is the 500 server error and the ledger is exactly the state
before the request, so none of the three effects is observable. -/
theorem C3_storage_failure_rolls_back (vSepolia vSolana : String → Bool) (fail : DbFailure)
    (now : ℕ) (req : TxRequest) (st : LedgerState) (hf : fieldsPresent req)
    (hv : verifiedOnChain vSepolia vSolana req.chain req.txHashOrSig = true)
    (hfail : fail.failInsert = true ∨ fail.failPoolUpdate = true ∨
      ((strLower req.txType = "deposit" ∨ strLower req.txType = "withdraw") ∧
        fail.failParticipantWrite = true) ∨
      (strLower req.txType = "withdraw" ∧ fail.failParticipantDelete = true)) :
    recordTransaction vSepolia vSolana fail now req st =
      (TxResponse.serverError "Server error", st) ∧
    respStatus (recordTransaction vSepolia vSolana fail now req st).1 = 500 := by
  have h : recordTransaction vSepolia vSolana fail now req st =
      (TxResponse.serverError "Server error", st) := by
    unfold recordTransaction
    rw [if_neg (fieldsPresent_not_missing hf), if_neg (by simp [hv])]
    rcases hfail with h | h | ⟨ht, h⟩ | ⟨ht, h⟩
    · simp [h]
    · simp [h]
    · rcases ht with ht | ht <;>
        simp [ht, h, show ("withdraw" : String) ≠ "deposit" from by decide]
    · simp [ht, h, show ("withdraw" : String) ≠ "deposit" from by decide]
  exact ⟨h, by rw [h]; rfl⟩

/-- C3 witness: with a failing transaction insert, a valid verified
deposit answers 500 and leaves the ledger unchanged. -/
theorem C3_witness :
    fieldsPresent depositReq ∧
    verifiedOnChain oracleTrue oracleTrue depositReq.chain depositReq.txHashOrSig = true ∧
    failInsertOnly.failInsert = true ∧
    recordTransaction oracleTrue oracleTrue failInsertOnly 0 depositReq st0 =
      (TxResponse.serverError "Server error", st0) :=
  ⟨by decide, by decide, rfl,
    (C3_storage_failure_rolls_back oracleTrue oracleTrue failInsertOnly 0 depositReq st0
      (by decide) (by decide) (Or.inl rfl)).1⟩

/-- Deposit upsert preserves non-negative participant amounts when the
deposited amount is non-negative. -/
theorem participantUpsert_nonneg {poolId userAddress : String} {amt : ℚ} (hamt : 0 ≤ amt)
    {ps : List ParticipantRow} (h0 : ∀ q ∈ ps, 0 ≤ q.amount) :
    ∀ q ∈ participantUpsert poolId userAddress amt ps, 0 ≤ q.amount := by
  intro q hq
  unfold participantUpsert at hq
  split at hq
  · rcases List.mem_map.mp hq with ⟨q0, hq0, rfl⟩
    by_cases hk : keyMatches poolId userAddress q0 = true
    · rw [if_pos hk]
      exact add_nonneg (h0 q0 hq0) hamt
    · rw [if_neg hk]
      exact h0 q0 hq0
  · rcases List.mem_append.mp hq with h | h
    · exact h0 q h
    · rw [List.mem_singleton] at h
      subst h
      exact hamt

/-- After the withdraw update followed by the depletion delete, every
surviving row is non-negative, and a surviving row for the withdrawn
(pool, user) key is strictly positive. -/
theorem participantWithdraw_nonneg {amt : ℚ} {poolId userAddress : String}
    {ps : List ParticipantRow} (h0 : ∀ q ∈ ps, 0 ≤ q.amount) :
    ∀ q ∈ participantDeleteDepleted poolId userAddress
        (participantWithdrawUpdate amt poolId userAddress ps),
      0 ≤ q.amount ∧ (keyMatches poolId userAddress q = true → 0 < q.amount) := by
  intro q hq
  unfold participantDeleteDepleted at hq
  rcases List.mem_filter.mp hq with ⟨hmem, hpred⟩
  unfold participantWithdrawUpdate at hmem
  rcases List.mem_map.mp hmem with ⟨q0, hq0, heq⟩
  by_cases hk : keyMatches poolId userAddress q0 = true
  · rw [if_pos hk] at heq
    subst heq
    have hk2 : keyMatches poolId userAddress
        { q0 with amount := q0.amount - amt } = true := hk
    have hgt : ¬(q0.amount - amt ≤ 0) := by
      intro hle
      rw [hk2] at hpred
      simp [hle] at hpred
    have hlt : 0 < q0.amount - amt := not_le.mp hgt
    exact ⟨le_of_lt hlt, fun _ => hlt⟩
  · rw [if_neg hk] at heq
    subst heq
    exact ⟨h0 q0 hq0, fun hcontra => absurd hcontra hk⟩

/-- The withdraw update touches no row when the (pool, user) key has no
participant row. -/
theorem participantWithdrawUpdate_no_match {amt : ℚ} {poolId userAddress : String}
    {ps : List ParticipantRow} (h : ∀ q ∈ ps, keyMatches poolId userAddress q = false) :
    participantWithdrawUpdate amt poolId userAddress ps = ps := by
  unfold participantWithdrawUpdate
  have h1 : ∀ q ∈ ps, (if keyMatches poolId userAddress q = true then
      { q with amount := q.amount - amt } else q) = q := by
    intro q hq
    rw [if_neg (by rw [h q hq]; exact Bool.false_ne_true)]
  rw [List.map_congr_left h1, List.map_id' ps]

/-- The depletion delete removes no row when the (pool, user) key has no
participant row. -/
theorem participantDeleteDepleted_no_match {poolId userAddress : String}
    {ps : List ParticipantRow} (h : ∀ q ∈ ps, keyMatches poolId userAddress q = false) :
    participantDeleteDepleted poolId userAddress ps = ps := by
  unfold participantDeleteDepleted
  apply List.filter_eq_self.mpr
  intro q hq
  rw [h q hq]
  rfl

/-- C6 (amended): after a successfully applied recordTransaction call
whose amount is non-negative, every Participant row of a ledger whose
rows were all non-negative stays ≥ 0, and on a withdraw no row for the
withdrawn (pool, user) key survives with amount ≤ 0 — the depletion
delete removes it within the same atomic unit.  (The non-negative-amount
hypothesis is forced by the counterexample: a negative deposit amount
passes validation and drives a participant balance below zero.) -/
theorem C6_participant_nonneg (vSepolia vSolana : String → Bool) (now : ℕ)
    (req : TxRequest) (st : LedgerState) (a : ℚ) (hf : fieldsPresent req)
    (hv : verifiedOnChain vSepolia vSolana req.chain req.txHashOrSig = true)
    (ha : req.amount = some a) (ha0 : 0 ≤ a)
    (h0 : ∀ q ∈ st.participants, 0 ≤ q.amount) :
    (∀ q ∈ (recordTransaction vSepolia vSolana noFail now req st).2.participants,
      0 ≤ q.amount) ∧
    (strLower req.txType = "withdraw" →
      ∀ q ∈ (recordTransaction vSepolia vSolana noFail now req st).2.participants,
        keyMatches req.poolId req.userAddress q = true → 0 < q.amount) := by
  rw [recordTransaction_noFail_success vSepolia vSolana now req st hf hv]
  have hamt : (0 : ℚ) ≤ req.amount.getD 0 := by rw [ha]; exact ha0
  constructor
  · intro q hq
    rw [applyStep_participants] at hq
    by_cases h1 : strLower req.txType = "deposit"
    · rw [if_pos h1] at hq
      exact participantUpsert_nonneg hamt h0 q hq
    · rw [if_neg h1] at hq
      by_cases h2 : strLower req.txType = "withdraw"
      · rw [if_pos h2] at hq
        exact (participantWithdraw_nonneg h0 q hq).1
      · rw [if_neg h2] at hq
        exact h0 q hq
  · intro hw q hq
    have hd : strLower req.txType ≠ "deposit" := by rw [hw]; decide
    rw [applyStep_participants, if_neg hd, if_pos hw] at hq
    exact (participantWithdraw_nonneg h0 q hq).2

/-- C6 counterexample: a verified deposit of -10 (which passes
validation) by a participant holding 5 is successfully applied and
leaves the participant row at -5 < 0 — the claim fails without a
non-negative-amount restriction. -/
theorem C6_counterexample :
    negDepositReq.amount = some (-10) ∧
    (recordTransaction oracleTrue oracleTrue noFail 0 negDepositReq st6).1 =
      TxResponse.success (mkTxRow 0 negDepositReq st6) ∧
    (recordTransaction oracleTrue oracleTrue noFail 0 negDepositReq st6).2.participants =
      [⟨"p1", "u1", -5⟩] ∧
    ¬(0 ≤ (-5 : ℚ)) :=
  ⟨rfl, by decide, by with_unfolding_all rfl, by norm_num⟩

/-- C6 witness: an ordinary deposit of 100 on a ledger whose single
participant row holds 5 keeps all participant rows non-negative. -/
theorem C6_witness :
    fieldsPresent depositReq ∧ (0 : ℚ) ≤ 100 ∧
    (∀ q ∈ st6.participants, 0 ≤ q.amount) ∧
    (∀ q ∈ (recordTransaction oracleTrue oracleTrue noFail 0 depositReq st6).2.participants,
      0 ≤ q.amount) :=
  ⟨by decide, by decide, by decide,
    (C6_participant_nonneg oracleTrue oracleTrue 0 depositReq st6 100
      (by decide) (by decide) rfl (by decide) (by decide)).1⟩

/-- C8: a verified withdraw by a user with no Participant row in the
pool succeeds: the participant UPDATE and the conditional DELETE affect
no row, while the pool balance is still decremented by the amount with
no floor (the balance formula is `COALESCE(balance, 0) - amount`, which
can go negative) and `active_entries` is decremented with its zero
clamp. -/
theorem C8_withdraw_without_participant (vSepolia vSolana : String → Bool) (now : ℕ)
    (req : TxRequest) (st : LedgerState) (hf : fieldsPresent req)
    (hw : strLower req.txType = "withdraw")
    (hv : verifiedOnChain vSepolia vSolana req.chain req.txHashOrSig = true)
    (hnp : ∀ q ∈ st.participants, keyMatches req.poolId req.userAddress q = false) :
    (recordTransaction vSepolia vSolana noFail now req st).1 =
      TxResponse.success (mkTxRow now req st) ∧
    (recordTransaction vSepolia vSolana noFail now req st).2.participants =
      st.participants ∧
    (recordTransaction vSepolia vSolana noFail now req st).2.pools = st.pools.map fun r =>
      if r.id = req.poolId then
        { r with
          current_pool_balance := some (r.current_pool_balance.getD 0 - req.amount.getD 0),
          active_entries := some (max (r.active_entries.getD 0 - 1) 0) }
      else r := by
  have hd : strLower req.txType ≠ "deposit" := by rw [hw]; decide
  rw [recordTransaction_noFail_success vSepolia vSolana now req st hf hv]
  refine ⟨rfl, ?_, ?_⟩
  · rw [applyStep_participants, if_neg hd, if_pos hw,
      participantWithdrawUpdate_no_match hnp, participantDeleteDepleted_no_match hnp]
  · rw [applyStep_pools]
    apply List.map_congr_left
    intro r _
    by_cases hid : r.id = req.poolId
    · simp [hid, poolUpdateRow, hw, sub_eq_add_neg,
        show ("withdraw" : String) ≠ "deposit" from by decide]
    · simp [hid]

/-- C8 witness: a verified withdraw of 25 from a pool holding 10, by a
user with no participant row, succeeds, leaves the participants
untouched and drives the pool balance to -15 (no floor). -/
theorem C8_witness :
    fieldsPresent bigWithdrawReq ∧ strLower bigWithdrawReq.txType = "withdraw" ∧
    (∀ q ∈ st8.participants,
      keyMatches bigWithdrawReq.poolId bigWithdrawReq.userAddress q = false) ∧
    (recordTransaction oracleTrue oracleTrue noFail 0 bigWithdrawReq st8).1 =
      TxResponse.success (mkTxRow 0 bigWithdrawReq st8) ∧
    (recordTransaction oracleTrue oracleTrue noFail 0 bigWithdrawReq st8).2.participants =
      st8.participants ∧
    (recordTransaction oracleTrue oracleTrue noFail 0 bigWithdrawReq st8).2.pools =
      [⟨"p1", some (-15), some 2⟩] :=
  ⟨by decide, by decide, by decide,
    (C8_withdraw_without_participant oracleTrue oracleTrue 0 bigWithdrawReq st8
      (by decide) (by decide) (by decide) (by decide)).1,
    (C8_withdraw_without_participant oracleTrue oracleTrue 0 bigWithdrawReq st8
      (by decide) (by decide) (by decide) (by decide)).2.1,
    by with_unfolding_all rfl⟩

/-- The entries count written by the pool update is never negative: it
carries the GREATEST(..., 0) clamp. -/
theorem poolUpdateRow_entries_nonneg (t : String) (amt : ℚ) (r : PoolRow) :
    0 ≤ ((poolUpdateRow t amt r).active_entries).getD 0 := by
  simp only [poolUpdateRow, Option.getD_some]
  exact le_max_right _ 0

/-- One committed request preserves non-negative entry counts on every
pool row. -/
theorem applyStep_entries_nonneg (now : ℕ) (req : TxRequest) (st : LedgerState)
    (h0 : ∀ row ∈ st.pools, 0 ≤ row.active_entries.getD 0) :
    ∀ row ∈ (applyStep now req st).pools, 0 ≤ row.active_entries.getD 0 := by
  intro row hrow
  rw [applyStep_pools] at hrow
  rcases List.mem_map.mp hrow with ⟨row0, hmem, heq⟩
  by_cases hid : row0.id = req.poolId
  · rw [if_pos hid] at heq
    subst heq
    exact poolUpdateRow_entries_nonneg _ _ _
  · rw [if_neg hid] at heq
    subst heq
    exact h0 row0 hmem

/-- A whole request sequence preserves non-negative entry counts. -/
theorem runSeq_entries_nonneg (vSepolia vSolana : String → Bool) (now : ℕ)
    (reqs : List TxRequest) (st : LedgerState)
    (h0 : ∀ row ∈ st.pools, 0 ≤ row.active_entries.getD 0) :
    ∀ row ∈ (runSeq vSepolia vSolana now reqs st).pools,
      0 ≤ row.active_entries.getD 0 := by
  induction reqs generalizing st with
  | nil => exact h0
  | cons r rs ih =>
    rw [runSeq_cons]
    apply ih
    rcases recordTransaction_state_cases vSepolia vSolana noFail now r st with h | h
    · rw [h]; exact h0
    · rw [h]; exact applyStep_entries_nonneg now r st h0

/-- C7: a pool's `active_entries` never becomes negative under any
sequence of applied requests (deposits and withdraws included), when it
starts non-negative (a NULL count reads as zero): each deposit writes
`max(COALESCE(entries, 0) + 1, 0)` and each withdraw writes
`max(COALESCE(entries, 0) - 1, 0)` — the GREATEST clamp keeps the count
at zero or above. -/
theorem C7_active_entries_never_negative (vSepolia vSolana : String → Bool) (now : ℕ)
    (reqs : List TxRequest) (st : LedgerState)
    (h0 : ∀ row ∈ st.pools, 0 ≤ row.active_entries.getD 0) :
    (∀ row ∈ (runSeq vSepolia vSolana now reqs st).pools,
      0 ≤ row.active_entries.getD 0) ∧
    (∀ (amt : ℚ) (r : PoolRow), (poolUpdateRow "deposit" amt r).active_entries =
      some (max (r.active_entries.getD 0 + 1) 0)) ∧
    (∀ (amt : ℚ) (r : PoolRow), (poolUpdateRow "withdraw" amt r).active_entries =
      some (max (r.active_entries.getD 0 - 1) 0)) := by
  refine ⟨runSeq_entries_nonneg vSepolia vSolana now reqs st h0, ?_, ?_⟩
  · intro amt r
    simp [poolUpdateRow]
  · intro amt r
    simp [poolUpdateRow, sub_eq_add_neg,
      show ("withdraw" : String) ≠ "deposit" from by decide]

/-- C7 witness: two withdraws followed by a deposit on a pool with entry
count 0 keep every entry count non-negative. -/
theorem C7_witness :
    (∀ row ∈ st0.pools, 0 ≤ row.active_entries.getD 0) ∧
    (∀ row ∈
      (runSeq oracleTrue oracleTrue 0 [withdrawReq, withdrawReq, depositReq] st0).pools,
      0 ≤ row.active_entries.getD 0) :=
  ⟨by decide,
    (C7_active_entries_never_negative oracleTrue oracleTrue 0
      [withdrawReq, withdrawReq, depositReq] st0 (by decide)).1⟩

/-- C4 (amended): over every sequence of successfully applied requests
on a pool, the coalesced pool balance (NULL read as zero) equals its
initial coalesced balance plus the net signed flow, where a request
contributes `+amount` when its lowercased type is "deposit" and
`-amount` for every other type (withdraw AND any unknown type — the
update's string interpolation picks the minus sign for all
non-deposits, which is what the counterexample forces the claim to
acknowledge). -/
theorem C4_balance_conservation (vSepolia vSolana : String → Bool) (now : ℕ)
    (reqs : List TxRequest) (st : LedgerState) (p : String)
    (hval : ∀ r ∈ reqs, fieldsPresent r)
    (hver : ∀ r ∈ reqs, verifiedOnChain vSepolia vSolana r.chain r.txHashOrSig = true)
    (hp : ∀ r ∈ reqs, r.poolId = p) :
    coalescedBalances (runSeq vSepolia vSolana now reqs st) =
      st.pools.map fun r =>
        (r.id, r.current_pool_balance.getD 0 + if r.id = p then netFlow reqs else 0) := by
  induction reqs generalizing st with
  | nil =>
    simp [runSeq, coalescedBalances, netFlow]
  | cons r rs ih =>
    have hf := hval r (List.mem_cons_self r rs)
    have hv := hver r (List.mem_cons_self r rs)
    have hpr := hp r (List.mem_cons_self r rs)
    have h2 : (recordTransaction vSepolia vSolana noFail now r st).2 = applyStep now r st :=
      by rw [recordTransaction_noFail_success vSepolia vSolana now r st hf hv]
    rw [runSeq_cons, h2,
      ih (applyStep now r st) (fun q hq => hval q (List.mem_cons_of_mem r hq))
        (fun q hq => hver q (List.mem_cons_of_mem r hq))
        (fun q hq => hp q (List.mem_cons_of_mem r hq)),
      applyStep_pools, List.map_map]
    apply List.map_congr_left
    intro row _
    simp only [Function.comp_apply]
    rw [hpr]
    by_cases hid : row.id = p
    · rw [if_pos hid]
      simp [poolUpdateRow, netFlow, signedAmount, hid, add_assoc]
    · rw [if_neg hid]
      simp [hid]

/-- C4 counterexample: one successfully applied request of type "Stake"
and amount 5 moves the pool balance from 0 to -5, while the sum of
applied deposit amounts minus the sum of applied withdraw amounts is 0 —
the balance does not equal initial + deposits - withdraws once a
non-deposit/non-withdraw type is applied. -/
theorem C4_counterexample :
    coalescedBalances st0 = [("p1", 0)] ∧
    coalescedBalances (runSeq oracleTrue oracleTrue 0 [stakeReq] st0) = [("p1", -5)] ∧
    depositTotal [stakeReq] = 0 ∧
    withdrawTotal [stakeReq] = 0 ∧
    ((-5 : ℚ) ≠ 0 + (0 - 0)) :=
  ⟨by with_unfolding_all rfl, by with_unfolding_all rfl, by with_unfolding_all rfl,
    by with_unfolding_all rfl, by norm_num⟩

/-- C4 witness: a deposit of 100 then a withdraw of 40 on pool p1
satisfy the conservation equation with net flow 60. -/
theorem C4_witness :
    (∀ r ∈ [depositReq, withdrawReq], fieldsPresent r) ∧
    (∀ r ∈ [depositReq, withdrawReq],
      verifiedOnChain oracleTrue oracleTrue r.chain r.txHashOrSig = true) ∧
    (∀ r ∈ [depositReq, withdrawReq], r.poolId = "p1") ∧
    coalescedBalances (runSeq oracleTrue oracleTrue 0 [depositReq, withdrawReq] st0) =
      st0.pools.map fun r =>
        (r.id, r.current_pool_balance.getD 0 +
          if r.id = "p1" then netFlow [depositReq, withdrawReq] else 0) :=
  ⟨by decide, by decide, by decide,
    C4_balance_conservation oracleTrue oracleTrue 0 [depositReq, withdrawReq] st0 "p1"
      (by decide) (by decide) (by decide)⟩

/-- C9 (amended): convertLockToSeconds multiplies its value by 1 for
"seconds", 60 for "minutes", 3600 for "hours", 86400 for "days", 604800
for "weeks", 2592000 for "months"; an unknown unit draws the default
multiplier 1 ONLY when the key is not inherited from Object.prototype —
for inherited keys ("toString", "valueOf", "constructor",
"hasOwnProperty", ...) the lookup returns the truthy inherited value,
`|| 1` keeps it, and the multiplication yields NaN.  The claim's
concrete examples (5, "days") = 432000, (2, "weeks") = 1209600 and
(1, "unknownunit") = 1 all hold. -/
theorem C9_convertLockToSeconds (v : ℚ) :
    convertLockToSeconds v "seconds" = JsNum.num (v * 1) ∧
    convertLockToSeconds v "minutes" = JsNum.num (v * 60) ∧
    convertLockToSeconds v "hours" = JsNum.num (v * 3600) ∧
    convertLockToSeconds v "days" = JsNum.num (v * 86400) ∧
    convertLockToSeconds v "weeks" = JsNum.num (v * 604800) ∧
    convertLockToSeconds v "months" = JsNum.num (v * 2592000) ∧
    (∀ u : String,
      u ∉ (["seconds", "minutes", "hours", "days", "weeks", "months"] : List String) →
      u ∉ objectProtoKeys →
      convertLockToSeconds v u = JsNum.num (v * 1)) ∧
    (∀ u ∈ objectProtoKeys, convertLockToSeconds v u = JsNum.nan) ∧
    convertLockToSeconds 5 "days" = JsNum.num 432000 ∧
    convertLockToSeconds 2 "weeks" = JsNum.num 1209600 ∧
    convertLockToSeconds 1 "unknownunit" = JsNum.num 1 := by
  refine ⟨rfl, rfl, rfl, rfl, rfl, rfl, ?_, ?_, ?_, ?_, ?_⟩
  · intro u hu hp
    simp only [List.mem_cons, List.not_mem_nil, or_false, not_or] at hu
    obtain ⟨n1, n2, n3, n4, n5, n6⟩ := hu
    unfold convertLockToSeconds unitsLookup
    rw [if_neg n1, if_neg n2, if_neg n3, if_neg n4, if_neg n5, if_neg n6, if_neg hp]
  · intro u hu
    fin_cases hu <;> rfl
  · with_unfolding_all rfl
  · with_unfolding_all rfl
  · with_unfolding_all rfl

/-- C9 counterexample: "toString" is not one of the six table units, yet
convertLockToSeconds(1, "toString") is NaN rather than the claimed
1 * 1: the `units` object literal inherits Object.prototype.toString,
which is truthy, so the `|| 1` default never applies and the
multiplication by a function yields NaN. -/
theorem C9_counterexample :
    ("toString" : String) ∉
      (["seconds", "minutes", "hours", "days", "weeks", "months"] : List String) ∧
    convertLockToSeconds 1 "toString" = JsNum.nan ∧
    JsNum.nan ≠ JsNum.num (1 * 1) :=
  ⟨by decide, by decide, by decide⟩

/-- C9 witness: the unknown non-inherited unit "fortnights" draws the
default multiplier 1, while the inherited key "toString" yields NaN. -/
theorem C9_witness :
    ("fortnights" : String) ∉
      (["seconds", "minutes", "hours", "days", "weeks", "months"] : List String) ∧
    ("fortnights" : String) ∉ objectProtoKeys ∧
    convertLockToSeconds 7 "fortnights" = JsNum.num (7 * 1) ∧
    ("toString" : String) ∈ objectProtoKeys ∧
    convertLockToSeconds 7 "toString" = JsNum.nan :=
  ⟨by decide, by decide,
    (C9_convertLockToSeconds 7).2.2.2.2.2.2.1 "fortnights" (by decide) (by decide),
    by decide,
    (C9_convertLockToSeconds 7).2.2.2.2.2.2.2.1 "toString" (by decide)⟩

/-- C10: listing a pool's transactions returns at most 50 rows, every
returned row belongs to the requested pool, and the rows are ordered
newest-first by creation timestamp. -/
theorem C10_list_transactions (poolId : String) (st : LedgerState) :
    (listTransactionsForPool poolId st).length ≤ 50 ∧
    (∀ t ∈ listTransactionsForPool poolId st, t.pool_id = poolId ∧ t ∈ st.transactions) ∧
    List.Pairwise (fun a b : TransactionRow => b.created_on ≤ a.created_on)
      (listTransactionsForPool poolId st) := by
  refine ⟨?_, ?_, ?_⟩
  · unfold listTransactionsForPool
    rw [List.length_take]
    exact min_le_left _ _
  · intro t ht
    unfold listTransactionsForPool at ht
    have ht2 := List.take_subset _ _ ht
    rw [List.mem_insertionSort] at ht2
    have ht3 := List.mem_filter.mp ht2
    exact ⟨by simpa using ht3.2, ht3.1⟩
  · unfold listTransactionsForPool
    haveI : IsTotal TransactionRow (fun a b => b.created_on ≤ a.created_on) :=
      ⟨fun a b => le_total b.created_on a.created_on⟩
    haveI : IsTrans TransactionRow (fun a b => b.created_on ≤ a.created_on) :=
      ⟨fun _ _ _ hab hbc => le_trans hbc hab⟩
    exact (List.sorted_insertionSort _ _).sublist (List.take_sublist _ _)

/-- C10 witness: on a store holding two p1 rows (timestamps 5 and 8) and
one p2 row, the listing returns the p1 rows newest-first and each listed
row belongs to p1. -/
theorem C10_witness :
    listTransactionsForPool "p1" st10 = [tx10c, tx10a] ∧ tx10c.pool_id = "p1" :=
  ⟨by with_unfolding_all rfl,
    ((C10_list_transactions "p1" st10).2.1 tx10c
      (by rw [show listTransactionsForPool "p1" st10 = [tx10c, tx10a] from
          by with_unfolding_all rfl]
          exact List.mem_cons_self _ _)).1⟩

end PoolApi
